import Mathlib

/-!
Shallow embedding of the Jiva backend (`src/main.py`) and proofs about its
message-processing pipeline, directive extractor, provider chain and
reminder sweep.

Python strings are modelled as `List Char` (`Str`); the Python string
operations used by the source (`find`, slicing, `strip`, `replace`, `in`,
`lower`, `startswith`) are given executable models with Python semantics.
`json.loads` and `datetime.fromisoformat` are library calls and enter the
embedding as explicit function parameters (`none` models a raised
exception); datetimes are represented by their ISO strings.
-/

/-- Python strings, modelled as lists of characters. -/
abbrev Str := List Char

/-- First index `≥ pos` at which `needle` starts in the remaining text
(`rest` is the original string with its first `pos` characters dropped).
Helper for Python `str.find`. -/
def findFromAux (needle : Str) : Str → Nat → Option Nat
  | [], pos => if needle.isPrefixOf ([] : Str) then some pos else none
  | c :: rest, pos =>
    if needle.isPrefixOf (c :: rest) then some pos
    else findFromAux needle rest (pos + 1)

/-- Python `s.find(needle, start)`: index of the first occurrence at or after
`start`, `-1` when there is none. -/
def pyFind (s needle : Str) (start : Nat) : Int :=
  match findFromAux needle (s.drop start) start with
  | some i => (i : Int)
  | none => -1

/-- Python `needle in s` (substring containment). -/
def pyContains (s needle : Str) : Bool :=
  (findFromAux needle s 0).isSome

/-- Normalise one Python slice endpoint against a string of length `len`:
negative indices count from the end, out-of-range indices clamp. -/
def pyIdx (len : Nat) (i : Int) : Nat :=
  if i < 0 then ((len : Int) + i).toNat else min i.toNat len

/-- Python `s[a:b]`. -/
def pySlice (s : Str) (a b : Int) : Str :=
  (s.take (pyIdx s.length b)).drop (pyIdx s.length a)

/-- Python `s.strip()` (leading and trailing whitespace removed). -/
def pyStrip (s : Str) : Str :=
  ((s.dropWhile Char.isWhitespace).reverse.dropWhile Char.isWhitespace).reverse

/-- Replace every (non-overlapping, left-to-right) occurrence of the
non-empty pattern `pat` by `new`. Each step consumes at least one character,
so fuel `≥ length` never runs out; fuel keeps the recursion structural.
Helper for Python `str.replace`. -/
def replaceCore (pat new : Str) : Nat → Str → Str
  | 0, s => s
  | _ + 1, [] => []
  | fuel + 1, c :: rest =>
    if pat.isPrefixOf (c :: rest) then
      new ++ replaceCore pat new fuel ((c :: rest).drop pat.length)
    else
      c :: replaceCore pat new fuel rest

/-- Python `s.replace(old, new)`. The source only calls this with a non-empty
`old` (the pattern always contains a directive tag and a closing marker), so
the empty-pattern case never matters; it is mapped to the identity. -/
def pyReplace (s old new : Str) : Str :=
  match old with
  | [] => s
  | _ :: _ => replaceCore old new s.length s

/-- Python `s.lower()` (the source only lowercases ASCII error strings). -/
def pyLower (s : Str) : Str := s.map Char.toLower

/-- Python `s.startswith(prefix)`. -/
def pyStartsWith (s pre : Str) : Bool := pre.isPrefixOf s

/-- Lexicographic `≤` on strings: the order in which the store compares the
ISO-format `reminder_time` column against `now.isoformat()` (`.lte`). -/
def strLe : Str → Str → Bool
  | [], _ => true
  | _ :: _, [] => false
  | a :: as, b :: bs => if a = b then strLe as bs else decide (a < b)

/-- JSON values, the possible results of `json.loads`. -/
inductive Json where
  | null
  | bool (b : Bool)
  | num (n : Int)
  | str (s : Str)
  | arr (items : List Json)
  | obj (fields : List (Str × Json))

/-- Python truthiness of a JSON value (`if updates:` / `if reminder_list:`):
`None`, `False`, `0`, `""`, `[]` and an empty dict are falsy. -/
def jsonTruthy : Json → Bool
  | .null => false
  | .bool b => b
  | .num n => decide (n ≠ 0)
  | .str s => decide (s ≠ [])
  | .arr l => !l.isEmpty
  | .obj f => !f.isEmpty

/-- Dictionary lookup on a parsed JSON object. `json.loads` keeps the last
occurrence of a duplicated key, as Python's dict construction does. -/
def jsonGet (fields : List (Str × Json)) (k : Str) : Option Json :=
  ((fields.filter (fun p => decide (p.1 = k))).getLast?).map Prod.snd

/-- Python `k in updates` for a `json.loads` result: key membership for a
dict, element membership for a list, substring test for a string. On a
number or bool Python would raise `TypeError`; the pipeline only reaches
this test after `if updates:` on the parse of a directive payload, and that
path is modelled as `false` (no key). -/
def jsonContains (j : Json) (k : Str) : Bool :=
  match j with
  | .obj fields => (jsonGet fields k).isSome
  | .arr items =>
    items.any (fun it => match it with | .str s => decide (s = k) | _ => false)
  | .str s => pyContains s k
  | _ => false

/-- Python `updates[k]` on a dict, used only under a `k in updates` guard;
`.null` stands for the unreachable missing-key case. -/
def jsonIndex (j : Json) (k : Str) : Json :=
  match j with
  | .obj fields => (jsonGet fields k).getD .null
  | _ => .null

/-- Comma-separated join, helper for Python `repr` of lists and dicts. -/
def joinComma (l : List Str) : Str := List.intercalate (", ".data) l

mutual
/-- Python `repr` of a `json.loads` value (strings quoted, `True`/`False`,
`None`), the rendering `str` falls back to for containers. -/
def jsonPyRepr : Json → Str
  | .null => "None".data
  | .bool b => (if b then "True" else "False").data
  | .num n => (toString n).data
  | .str s => '\'' :: (s ++ ['\''])
  | .arr items => '[' :: (joinComma (jsonPyReprList items) ++ [']'])
  | .obj fields => '\x7b' :: (joinComma (jsonPyReprFields fields) ++ ['\x7d'])

/-- `repr` of each element of a list. -/
def jsonPyReprList : List Json → List Str
  | [] => []
  | j :: rest => jsonPyRepr j :: jsonPyReprList rest

/-- `repr` of each `key: value` pair of a dict. -/
def jsonPyReprFields : List (Str × Json) → List Str
  | [] => []
  | (k, v) :: rest =>
    ('\'' :: (k ++ ('\'' :: ':' :: ' ' :: jsonPyRepr v))) :: jsonPyReprFields rest
end

/-- Python `str()` of a `json.loads` value, as an f-string renders it:
a string stays itself, containers render by `repr`. -/
def jsonPyStr : Json → Str
  | .str s => s
  | j => jsonPyRepr j

/-- Python `str()` of an optional string column (`None` renders as "None"). -/
def pyOptStr : Option Str → Str
  | some s => s
  | none => "None".data

/-- A row of the `users` table (`User` model, main.py:64-72; `id` is the
store-assigned primary key the pipeline reads as `user['id']`). -/
structure UserRow where
  id : Nat
  phone_number : Str
  name : Option Str
  age : Option Int
  gender : Option Str
  blood_group : Option Str
  allergies : Option Str
  medical_history : Option Str
  emergency_contact : Option Str
deriving DecidableEq

/-- A row of the `chat_history` table, in creation order. -/
structure ChatRow where
  user_id : Nat
  role : Str
  content : Str
deriving DecidableEq

/-- A row of the `reminders` table. -/
structure ReminderRow where
  id : Nat
  user_id : Nat
  reminder_time : Str
  message : Str
  status : Str
deriving DecidableEq

/-- The store: three tables plus the next primary keys the store will
assign. Lists are in insertion (= `created_at`) order. -/
structure Db where
  users : List UserRow
  chat : List ChatRow
  reminders : List ReminderRow
  nextUserId : Nat
  nextReminderId : Nat
deriving DecidableEq

/-- `get_user` (main.py:79-89): first row with the phone number, `None` when
there is none — and also `None` when the select raises, because the handler
logs and returns `None` (main.py:87-89). `lookupFails` models a store
error on this call. -/
def get_user (lookupFails : Bool) (db : Db) (phone : Str) : Option UserRow :=
  if lookupFails then none
  else db.users.find? (fun u => decide (u.phone_number = phone))

/-- `create_user` (main.py:91-97): insert of a fresh row. The phone number is
the identity key, so a duplicate insert fails at the store and the handler
swallows the error (main.py:96-97), leaving the table unchanged. -/
def create_user (db : Db) (phone name : Str) : Db :=
  if db.users.any (fun u => decide (u.phone_number = phone)) then db
  else
    { db with
      users := db.users ++
        [{ id := db.nextUserId, phone_number := phone, name := some name,
           age := none, gender := none, blood_group := none, allergies := none,
           medical_history := none, emergency_contact := none }],
      nextUserId := db.nextUserId + 1 }

/-- Set one column of a user row from one key of an update dict; `none` when
the key is not a column of the table or the value does not fit the column,
which makes the whole store update fail. -/
def applyField (u : UserRow) (k : Str) (v : Json) : Option UserRow :=
  if k = "name".data then
    match v with
    | .str s => some { u with name := some s }
    | .null => some { u with name := none }
    | _ => none
  else if k = "age".data then
    match v with
    | .num n => some { u with age := some n }
    | .null => some { u with age := none }
    | _ => none
  else if k = "gender".data then
    match v with
    | .str s => some { u with gender := some s }
    | .null => some { u with gender := none }
    | _ => none
  else if k = "blood_group".data then
    match v with
    | .str s => some { u with blood_group := some s }
    | .null => some { u with blood_group := none }
    | _ => none
  else if k = "allergies".data then
    match v with
    | .str s => some { u with allergies := some s }
    | .null => some { u with allergies := none }
    | _ => none
  else if k = "medical_history".data then
    match v with
    | .str s => some { u with medical_history := some s }
    | .null => some { u with medical_history := none }
    | _ => none
  else if k = "emergency_contact".data then
    match v with
    | .str s => some { u with emergency_contact := some s }
    | .null => some { u with emergency_contact := none }
    | _ => none
  else none

/-- Apply every key of an update dict to a row, failing if any key fails. -/
def applyFields (u : UserRow) : List (Str × Json) → Option UserRow
  | [] => some u
  | (k, v) :: rest =>
    match applyField u k v with
    | some u' => applyFields u' rest
    | none => none

/-- `update_user_profile` (main.py:99-105): `update(updates).eq(phone)`. A
non-dict payload or an update with an unknown column or ill-typed value makes
the store raise; the handler swallows the error, so the table is unchanged.
(Whether an update fails depends only on its keys and values, never on the
row, so the per-row `getD` below is all-or-nothing across rows.) -/
def update_user_profile (db : Db) (phone : Str) (updates : Json) : Db :=
  match updates with
  | .obj fields =>
    { db with
      users := db.users.map (fun u =>
        if decide (u.phone_number = phone) then (applyFields u fields).getD u
        else u) }
  | _ => db

/-- `get_chat_history` (main.py:107-119): the newest `limit` rows of the
user, returned in chronological order. -/
def get_chat_history (db : Db) (user_id : Nat) (limit : Nat) : List ChatRow :=
  let l := db.chat.filter (fun m => decide (m.user_id = user_id))
  (l.reverse.take limit).reverse

/-- `save_message` (main.py:121-131): append one turn. -/
def save_message (db : Db) (user_id : Nat) (role content : Str) : Db :=
  { db with chat := db.chat ++ [{ user_id := user_id, role := role, content := content }] }

/-- `create_reminder` (main.py:133-144): insert a pending reminder. The
`message` value comes straight from the directive payload, so it may be any
JSON value; a non-string does not fit the text column, the insert raises and
`create_reminder` swallows the error (main.py:143-144), leaving the table
unchanged. `rtime` is the ISO string of the parsed datetime
(`reminder_time.isoformat()`). -/
def create_reminder (db : Db) (user_id : Nat) (rtime : Str) (message : Json) : Db :=
  match message with
  | .str m =>
    { db with
      reminders := db.reminders ++
        [{ id := db.nextReminderId, user_id := user_id, reminder_time := rtime,
           message := m, status := "pending".data }],
      nextReminderId := db.nextReminderId + 1 }
  | _ => db

/-- The nested helper `extract_json(tag, text)` of the pipeline
(main.py:472-482), generic over `json.loads` (`loads json_str = none` models
a raised parse error). `tag in text` and `s = text.find(tag)` are the same
search, so the guard and the assignment are one `match`: on `none` the tag
is absent and `(None, text)` is returned. Otherwise `e` is the first `]]` at
or after `s` (`-1` when there is none), the payload is `text[s+len(tag):e]`,
and on parse success the cleaned text is `text[:s].strip()` — everything
from the tag onward is dropped. On parse failure the handler returns
`text.replace(f"TAG SPACE PAYLOAD]]", "").strip()`: the replace pattern is
`tag ++ " " ++ json_str ++ "]]"`, with a space between tag and payload that
the original text need not contain. -/
def extract_json (loads : Str → Option Json) (tag text : Str) : Option Json × Str :=
  match findFromAux tag text 0 with
  | none => (none, text)
  | some s =>
    let e : Int := pyFind text "]]".data s
    let json_str := pySlice text ((s : Int) + tag.length) e
    match loads json_str with
    | some parsed => (some parsed, pyStrip (pySlice text 0 (s : Int)))
    | none =>
      (none, pyStrip (pyReplace text (tag ++ ' ' :: (json_str ++ "]]".data)) []))

/-- One iteration of the reminder-batch loop (main.py:495-497) up to the
`create_reminder` call: `item['time']` (KeyError on a non-dict or missing
key), `datetime.fromisoformat` (raises on a non-string or unparsable value),
`item['message']` (KeyError when missing). `none` means the iteration
raised, which the surrounding `try` turns into the end of the whole batch. -/
def parse_reminder_entry (fromiso : Str → Option Str) (item : Json) :
    Option (Str × Json) :=
  match item with
  | .obj fields =>
    match jsonGet fields "time".data with
    | some (.str tstr) =>
      match fromiso tstr with
      | some t =>
        match jsonGet fields "message".data with
        | some m => some (t, m)
        | none => none
      | none => none
    | some _ => none
    | none => none
  | _ => none

/-- The `for item in reminder_list` loop (main.py:495-498). The `try` wraps
the loop, so the first entry whose parsing raises ends the batch: entries
before it are already persisted, entries after it are never reached. -/
def apply_entries (fromiso : Str → Option Str) (user_id : Nat) (db : Db) :
    List Json → Db
  | [] => db
  | item :: rest =>
    match parse_reminder_entry fromiso item with
    | some (t, m) => apply_entries fromiso user_id (create_reminder db user_id t m) rest
    | none => db

/-- The reminder-batch block (main.py:493-500) applied to the parsed payload.
Iterating a non-list payload either raises at once (int) or yields items
whose `item['time']` indexing raises (dict keys, string characters), so in
every non-list case the `except` fires before any reminder is created. -/
def apply_reminder_batch (fromiso : Str → Option Str) (user_id : Nat) (db : Db) :
    Json → Db
  | .arr items => apply_entries fromiso user_id db items
  | _ => db

/-- The media object handed to the model: a PIL image or an audio blob with
its mime type (main.py:283-291; the bytes themselves carry no logic). -/
inductive MediaPart where
  | image
  | audio (mime : Str)
deriving DecidableEq

/-- What the two media collaborators return for a `media_id`
(main.py:278-293): `get_media_url` may fail, `download_media` may fail, or
bytes arrive with an optional declared Content-Type. -/
inductive MediaFetch where
  | urlFail
  | dataFail
  | got (mime : Option Str)
deriving DecidableEq

/-- Media handling (main.py:274-293): the media part passed to the model, the
`media_type_label` (initialised "Image"), and the suffix appended to
`message_body`. An unsupported or undeclared mime type is logged and
dropped. -/
def resolve_media : Option MediaFetch → Option MediaPart × Str × Str
  | none => (none, "Image".data, [])
  | some .urlFail => (none, "Image".data, [])
  | some .dataFail => (none, "Image".data, [])
  | some (.got none) => (none, "Image".data, [])
  | some (.got (some mime)) =>
    if pyStartsWith mime "image".data then
      (some .image, "Image".data,
        "\n[System: User uploaded an medical image/prescription]".data)
    else if pyStartsWith mime "audio".data then
      (some (.audio mime), "Audio".data,
        "\n[System: User sent a Voice Note. Listen carefully and reply.]".data)
    else
      (none, "Image".data, [])

/-- One history message as handed to `start_chat`
(`{"role": r, "parts": [content]}`, main.py:383-386). -/
structure ChatMsg where
  role : Str
  content : Str
deriving DecidableEq

/-- One generation request as a provider receives it. For a Gemini text call
the prompt is `system ++ "\n\nUser: " ++ userText` sent into a chat seeded
with `history`; for a media call the parts are system, label, media and
userText with no history; for the Groq fallback the messages are the system
instruction and the user text with no history and no media
(main.py:411-424, 450-458). -/
structure GenRequest where
  model : Str
  system : Str
  history : List ChatMsg
  userText : Str
  media : Option MediaPart
  mediaLabel : Str
deriving DecidableEq

/-- Outcome of one provider call: a response body, or a raised exception
rendered as `str(e)`. -/
inductive GenOutcome where
  | success (text : Str)
  | error (message : Str)
deriving DecidableEq

/-- The failure taxonomy of the chain loop (main.py:430-443). -/
inductive FailureClass where
  | rateLimited
  | serverError
  | other
deriving DecidableEq

/-- Classification of `str(e).lower()` (main.py:431-443): quota markers mean
rate-limited, 500/503 mean server error, anything else is logged as a
critical error — every class just continues to the next provider. -/
def classify_error (e : Str) : FailureClass :=
  let s := pyLower e
  if pyContains s "429".data || pyContains s "quota".data
      || pyContains s "exhausted".data then .rateLimited
  else if pyContains s "500".data || pyContains s "503".data then .serverError
  else .other

/-- The ordered primary model list (main.py:396-399). -/
def models_to_try : List Str :=
  ["gemini-2.0-flash".data, "gemini-2.0-flash-lite-001".data]

/-- The `for model_name in models_to_try` loop (main.py:406-443): build the
request for each model in declared order, stop at the first success, and on
any exception (rate limit, server error or other — see `classify_error`)
continue at once with the next model, with no retry and no backoff against
the same model. Returns the first success's text (if any) and the trace of
attempts in order. -/
def run_gemini_chain (behavior : GenRequest → GenOutcome) (mk : Str → GenRequest) :
    List Str → Option Str × List (GenRequest × GenOutcome)
  | [] => (none, [])
  | m :: rest =>
    let req := mk m
    match behavior req with
    | .success t => (some t, [(req, .success t)])
    | .error e =>
      let r := run_gemini_chain behavior mk rest
      (r.1, (req, .error e) :: r.2)

/-- The request of the single Groq fallback call (main.py:450-458):
`llama-3.3-70b-versatile`, a system message holding the system instruction
and a user message holding `message_body` — no history, no media. -/
def groq_request (system userText : Str) : GenRequest :=
  { model := "llama-3.3-70b-versatile".data, system := system, history := [],
    userText := userText, media := none, mediaLabel := [] }

/-- The whole provider chain (main.py:396-463): the Gemini loop, then — only
if no primary succeeded and the Groq client is configured — exactly one Groq
call, whose success is taken and whose failure is only logged. Returns the
final response text (if any), the Gemini trace and the Groq trace. -/
def run_model_chain (behavior groqBehavior : GenRequest → GenOutcome)
    (groqClient : Bool) (mk : Str → GenRequest) (system userText : Str) :
    Option Str × List (GenRequest × GenOutcome) × List (GenRequest × GenOutcome) :=
  let r := run_gemini_chain behavior mk models_to_try
  match r.1 with
  | some t => (some t, r.2, [])
  | none =>
    if groqClient then
      let req := groq_request system userText
      match groqBehavior req with
      | .success t => (some t, r.2, [(req, .success t)])
      | .error e => (none, r.2, [(req, .error e)])
    else (none, r.2, [])

/-- Python truthiness of an optional string column (`user.get(k)` in an
`if`): falsy when missing, `None` or empty. -/
def strTruthy : Option Str → Bool
  | some s => !s.isEmpty
  | none => false

/-- Python truthiness of an optional integer column: falsy when missing,
`None` or `0`. -/
def intTruthy : Option Int → Bool
  | some n => n != 0
  | none => false

/-- Python `str()` of an optional integer column. -/
def pyOptInt : Option Int → Str
  | some n => (toString n).data
  | none => "None".data

/-- The user-profile block of the system instruction (main.py:263-269): the
name line always (a null name renders as Python prints `None`), then one
line per profile field whose value is truthy (`if user.get('age'): ...`
etc.). The `blood_group` column of the `users` model is never rendered. -/
def profile_str (u : UserRow) : Str :=
  let s := "Name: ".data ++ pyOptStr u.name ++ "\n".data
  let s := if intTruthy u.age then s ++ "Age: ".data ++ pyOptInt u.age ++ "\n".data else s
  let s := if strTruthy u.gender then s ++ "Gender: ".data ++ pyOptStr u.gender ++ "\n".data else s
  let s := if strTruthy u.allergies then s ++ "Allergies: ".data ++ pyOptStr u.allergies ++ "\n".data else s
  let s := if strTruthy u.medical_history then s ++ "History: ".data ++ pyOptStr u.medical_history ++ "\n".data else s
  if strTruthy u.emergency_contact then s ++ "Emergency Contact: ".data ++ pyOptStr u.emergency_contact ++ "\n".data else s

/-- The greeting guidance string (main.py:301-316), chosen from the history
being empty and else the hour of day. -/
def greeting_guide (is_first_message : Bool) (hour : Nat) (user_name : Str) : Str :=
  if is_first_message then
    "Context: No chat history found. If user asks a specific question, ANSWER DIRECTLY (do not introduce yourself). If user says 'Hi'/'Hello', say: 'Namaste ".data
      ++ user_name ++ "! Main Jiva hoon.'".data
  else if 6 ≤ hour ∧ hour < 12 then
    "Use morning greeting: 'Good morning ".data ++ user_name
      ++ "! Kaisi tabiyat hai aaj?'".data
  else if 12 ≤ hour ∧ hour < 17 then
    "Use afternoon greeting: 'Hello ".data ++ user_name ++ "! Kya haal hai?'".data
  else if 17 ≤ hour ∧ hour < 21 then
    "Use evening greeting: 'Namaste ".data ++ user_name ++ "! Sab theek?'".data
  else
    "Use night greeting: 'Hi ".data ++ user_name ++ "! Abhi tak jaage?'".data

/-- The literal text of the system-instruction f-string (main.py:318-381)
before the `current_time` splice. -/
def sysPart1 : Str :=
  "\nYou are **Jiva - An Advanced AI Health Assistant**.\n\n🎯 **YOUR MISSION**:\nProvide **professional, medically-grounded, and actionable** health guidance. You are NOT a replacement for a doctor, but you are a **highly intelligent medical triage assistant**.\n\n🚫 **CRITICAL RULES (STRICT COMPLIANCE REQUIRED)**:\n1. **NO REPETITIVE GREETINGS**: Do NOT say \"Namaste\", \"Hello\", or introduce yourself in every message. Only greet IF the user explicitly greets you first (e.g., \"Hi Jiva\"). Otherwise, **ANSWER DIRECTLY**.\n2. **NO GENERIC \"CHAI/DOLO\" ADVICE**: Do not suggest medicines unless you have analyzed the symptoms. \"Drink tea\" is not a medical solution for everything.\n3. **EMERGENCY FIRST**: If symptoms suggest a crisis (Heart attack, Stroke, Severe Bleeding, Breathing difficulty), **STOP EVERYTHING** and trigger the Emergency Protocol immediately.\n\n🧬 **MEDICAL TRIAGE PROTOCOL (follow this flow)**:\n\n**PHASE 1: ASSESSMENT (The \"Doctor's Mind\")**\n- Don't just accept \"Headache\". Ask: *Location? Type (throbbing/dull)? Duration? Associated symptoms (nausea, vision obs)?*\n- Max 2-3 sharp, clinical questions to narrow down the cause.\n\n**PHASE 2: DIFFERENTIAL ANALYSIS**\n- Based on answers, think: \"Could this turn into a migraine? Or is it just stress?\"\n- Explain your reasoning briefly to the user.\n\n**PHASE 3: MANAGEMENT PLAN**\n- **Primary**: Immediate relief measures (Positioning, Breathing, Hydration).\n- **Secondary**: Safe OTC medications (Paracetamol 650mg, ORS, Antacids) - *Always mention dosage warnings*.\n- **Tertiary**: Home/Natural remedies (only if clinically supported, e.g., Steam key for congestion).\n\n⏰ **CURRENT CONTEXT**:\nTime: ".data

/-- Literal between the `current_time` and `profile_str` splices. -/
def sysPart2 : Str := "\nUser Context: ".data

/-- Literal between the `profile_str` and `greeting_guide` splices. -/
def sysPart3 : Str := "\nGreeting Guidance: \"".data

/-- Literal after the `greeting_guide` splice. -/
def sysPart4 : Str := "\" (Use this ONLY if conversation just started. Otherwise IGNORE.)\n\n🚨 **EMERGENCY RESPONSE FORMAT (When specific keywords detected: Chest pain, breathless, collapsed)**:\n\"🚨 **CRITICAL MEDICAL ALERT**\n• **IMMEDIATE ACTION**: [Specific life-saving step, e.g., 'Sit down, chew Aspirin 300mg']\n• **CALL EMERGENCY**: Dial **108** or **102** NOW.\n• **HOSPITAL**: Go to the nearest ER immediately.\n[[SOS]]\" \n(The [[SOS]] tag triggers an alert to their family. USE IT for serious threats.)\n\n💊 **PRESCRIPTION & REPORT ANALYSIS**:\nIf an image is provided:\n1. **Identify**: Is it a Prescription? Lab Report? Medicine Strip?\n2. **Extract**: Doctor's Name, Patient Name, Medicines (Name + Dosage + Frequency).\n3. **Action**: Explain what the medicine is for. \n4. **Scheduling**: Create reminders using the tag [[SCHEDULE_REMINDERS: [\x7b\"message\": \"Take Metformin\", \"time\": \"2023-10-27T09:00:00\"\x7d]]]\n\n🗣️ **TONE & STYLE**:\n- **Professional & Assuring**: Like a senior resident doctor.\n- **Direct**: Get to the point. No fluff.\n- **Structured**: Use Bullet points.\n- **Indian Context**: Understand Indian brand names (Crocin, Dolo, Pan D, Azithral) and diet.\n\n**EXAMPLE (Good Response)**:\nUser: \"I have a severe headache on one side.\"\nJiva: \"Is there any nausea or sensitivity to light? How long has it been hurting?\nIt sounds like it could be a **Migraine**.\n• **Immediate**: Go to a dark, quiet room. Rest.\n• **Meds**: You can take a Paracetamol (Dolo 650) if you have no allergies. If it persists > 24hrs, see a doctor.\n• **Hydrate**: Drink water slowly.\"\n\n**EXAMPLE (Bad Response)**:\nUser: \"Headache.\"\nJiva: \"Namaste! Have some chai and take rest. Everything will be fine.\" (❌ TOO SIMPLE)\n".data


/-- The assembled system instruction (main.py:318-381). -/
def system_instruction (current_time profile guide : Str) : Str :=
  sysPart1 ++ current_time ++ sysPart2 ++ profile ++ sysPart3 ++ guide ++ sysPart4

/-- The first-contact introduction (main.py:244). -/
def onboarding_intro : Str :=
  "Jai Shree Shyam! Namaste! I am Jiva, your personal Health Guardian. Before we start, may I know your good name?".data

/-- The fixed degraded-service notice (main.py:467). -/
def degraded_notice : Str :=
  "⚠️ Server Overload: All AI systems are busy. Emergency? Call 108 immediately.".data

/-- The environment of one pipeline run: the store/collaborator outcomes and
ambient values the source reads. `lookupFails` is a store error inside
`get_user`; `loads` and `fromiso` model `json.loads` and
`datetime.fromisoformat`; `behavior`/`groqBehavior` are the providers;
`groqClient` is whether `GROQ_API_KEY` configured a fallback client;
`hour`/`current_time` come from `datetime.now()`; `sendOk` is the Boolean
result of `send_whatsapp_message`, which every caller ignores. -/
structure Env where
  lookupFails : Bool
  loads : Str → Option Json
  fromiso : Str → Option Str
  behavior : GenRequest → GenOutcome
  groqBehavior : GenRequest → GenOutcome
  groqClient : Bool
  hour : Nat
  current_time : Str
  sendOk : Str → Str → Bool

/-- Everything a pipeline run leaves behind: the store, the WhatsApp messages
sent in order (destination, body), and the provider calls made with their
outcomes. -/
structure PipelineResult where
  db : Db
  sent : List (Str × Str)
  gemini : List (GenRequest × GenOutcome)
  groq : List (GenRequest × GenOutcome)
deriving DecidableEq

/-- `processing_pipeline` (main.py:237-521).

* No user row (or a store error in the lookup, which `get_user` also turns
  into `None`): create a "Pending" user, send the introduction, return
  (main.py:241-245).
* Name capture: a user named "Pending" gets the stripped message stored as
  name and a greeting; the `try` around the update cannot fire because
  `update_user_profile` and `send_whatsapp_message` swallow their own
  errors (main.py:247-257).
* Active flow: build the profile string, fetch the last 10 turns, resolve
  media, build the greeting guidance and system instruction, run the
  provider chain (main.py:259-463) — then the mis-indented tail: the whole
  directive-extraction / persist / send block sits inside
  `if not success:` (main.py:465-518), so it runs only on chain
  exhaustion, over the fixed degraded notice; a successful run instead
  takes the `else:` branch (main.py:519-521) and only sends the raw
  provider text. -/
def processing_pipeline (env : Env) (db : Db) (user_phone message_body : Str)
    (media : Option MediaFetch) : PipelineResult :=
  match get_user env.lookupFails db user_phone with
  | none =>
    let db := create_user db user_phone "Pending".data
    { db := db, sent := [(user_phone, onboarding_intro)], gemini := [], groq := [] }
  | some user =>
    if user.name = some "Pending".data then
      let new_name := pyStrip message_body
      let db := update_user_profile db user_phone (.obj [("name".data, .str new_name)])
      { db := db,
        sent := [(user_phone,
          "Namaste ".data ++ new_name ++
            "! I am ready to help you with your health. How are you feeling today?".data)],
        gemini := [], groq := [] }
    else
      let user_id := user.id
      let user_name := pyOptStr user.name
      let prof := profile_str user
      let chat_history := get_chat_history db user_id 10
      let md := resolve_media media
      let media_part := md.1
      let media_label := md.2.1
      let message_body := message_body ++ md.2.2
      let is_first_message := chat_history.length = 0
      let gg := greeting_guide is_first_message env.hour user_name
      let sys := system_instruction env.current_time prof gg
      let history_content := chat_history.map (fun m =>
        { role := if m.role = "user".data then "user".data else "model".data,
          content := m.content : ChatMsg })
      let mk : Str → GenRequest := fun model =>
        { model := model, system := sys,
          history := if media_part.isSome then [] else history_content,
          userText := message_body, media := media_part, mediaLabel := media_label }
      let chain := run_model_chain env.behavior env.groqBehavior env.groqClient mk
        sys message_body
      match chain.1 with
      | some response_text =>
        { db := db, sent := [(user_phone, response_text)],
          gemini := chain.2.1, groq := chain.2.2 }
      | none =>
        let response_text := degraded_notice
        let final_reply := response_text
        let ex1 := extract_json env.loads "[[UPDATE_PROFILE:".data final_reply
        let updates := ex1.1
        let final_reply := ex1.2
        let st :=
          match updates with
          | some u =>
            if jsonTruthy u then
              let db := update_user_profile db user_phone u
              if jsonContains u "emergency_contact".data then
                (db, final_reply ++ "\n(✅ Saved Emergency Contact: ".data
                  ++ jsonPyStr (jsonIndex u "emergency_contact".data) ++ ")".data)
              else (db, final_reply)
            else (db, final_reply)
          | none => (db, final_reply)
        let db := st.1
        let final_reply := st.2
        let ex2 := extract_json env.loads "[[SCHEDULE_REMINDERS:".data final_reply
        let reminder_list := ex2.1
        let final_reply := ex2.2
        let db :=
          match reminder_list with
          | some j =>
            if jsonTruthy j then apply_reminder_batch env.fromiso user_id db j else db
          | none => db
        let sos :=
          if pyContains response_text "[[SOS]]".data then
            let final_reply := pyStrip (pyReplace final_reply "[[SOS]]".data [])
            match user.emergency_contact with
            | some contact =>
              if contact ≠ [] then
                ([(contact,
                   "🚨 EMERGENCY: ".data ++ user_name ++ " (".data ++ user_phone
                     ++ ") needs help! Message: '".data ++ message_body ++ "'".data)],
                 final_reply ++
                   "\n\n🚨 **I HAVE ALERTED YOUR EMERGENCY CONTACT.** Help is on the way.".data)
              else
                ([], final_reply ++
                  "\n\n⚠️ **I tried to alert your family, but NO Emergency Contact is saved!** Please call 102/108 immediately.".data)
            | none =>
              ([], final_reply ++
                "\n\n⚠️ **I tried to alert your family, but NO Emergency Contact is saved!** Please call 102/108 immediately.".data)
          else ([], final_reply)
        let sosSends := sos.1
        let final_reply := sos.2
        let db := save_message db user_id "user".data message_body
        let db := save_message db user_id "assistant".data final_reply
        { db := db, sent := sosSends ++ [(user_phone, final_reply)],
          gemini := chain.2.1, groq := chain.2.2 }

/-- `check_Reminders` (main.py:581-619): fetch the pending reminders due at
`now` once, then for each resolve the owner (a miss or a raised `.single()`
logs and continues, leaving the reminder pending) and otherwise send the
text — the Boolean result of `send_whatsapp_message` is ignored — and mark
the reminder `sent` unconditionally. Returns the store and the delivery
attempts `(phone, message, send result)` in order. -/
def check_Reminders (sendOk : Str → Str → Bool) (now : Str) (db : Db) :
    Db × List (Str × Str × Bool) :=
  let due := db.reminders.filter (fun r =>
    decide (r.status = "pending".data) && strLe r.reminder_time now)
  due.foldl (fun acc r =>
    match acc.1.users.find? (fun u => decide (u.id = r.user_id)) with
    | some u =>
      let msg := "⏰ Reminder: ".data ++ r.message
      let ok := sendOk u.phone_number msg
      ({ acc.1 with
          reminders := acc.1.reminders.map (fun x =>
            if x.id = r.id then { x with status := "sent".data } else x) },
       acc.2 ++ [(u.phone_number, msg, ok)])
    | none => acc) (db, [])

/-- The open marker of the profile-update directive. -/
def tagUP : Str := "[[UPDATE_PROFILE:".data

/-- The open marker of the reminder-batch directive. -/
def tagSR : Str := "[[SCHEDULE_REMINDERS:".data

/-- A fully onboarded user for the concrete scenarios. -/
def uAsha : UserRow :=
  { id := 1, phone_number := "919999990000".data, name := some "Asha".data,
    age := none, gender := none, blood_group := none, allergies := none,
    medical_history := none, emergency_contact := none }

/-- A store holding just that user, with empty history. -/
def dbAsha : Db :=
  { users := [uAsha], chat := [], reminders := [], nextUserId := 2, nextReminderId := 1 }

/-- A base environment for the concrete scenarios: lookups work, parsers
reject everything, providers fail, Groq is configured, delivery succeeds. -/
def baseEnv : Env :=
  { lookupFails := false, loads := fun _ => none, fromiso := fun _ => none,
    behavior := fun _ => .error "err".data,
    groqBehavior := fun _ => .error "err".data, groqClient := true, hour := 10,
    current_time := "2025-01-01 10:00 AM".data, sendOk := fun _ _ => true }

/-- C1. The pipeline run in the Active state in which the first provider
returns `Success` with the text "Rest [[SOS]] well": because the whole
directive-extraction / persist block sits under `if not success:`
(main.py:465-518), the success path only executes main.py:519-521. The user
receives the raw provider text, directive marker included, and the store is
completely unchanged — no extraction, no turns persisted. This contradicts
the specified success-path behaviour (extract directives, persist the two
turns, deliver the cleaned text). -/
theorem success_path_sends_raw_and_persists_nothing :
    ((processing_pipeline
        { baseEnv with behavior := fun _ => .success "Rest [[SOS]] well".data }
        dbAsha "919999990000".data "hi".data none).gemini.map Prod.snd
      = [.success "Rest [[SOS]] well".data])
    ∧ ((processing_pipeline
        { baseEnv with behavior := fun _ => .success "Rest [[SOS]] well".data }
        dbAsha "919999990000".data "hi".data none).sent
      = [("919999990000".data, "Rest [[SOS]] well".data)])
    ∧ ((processing_pipeline
        { baseEnv with behavior := fun _ => .success "Rest [[SOS]] well".data }
        dbAsha "919999990000".data "hi".data none).db
      = dbAsha) := by
  refine ⟨by decide, by decide, by decide⟩

/-- C2. The pipeline run in which both Gemini models and the Groq fallback
fail: the mis-indented block under `if not success:` (main.py:465-518) runs
the directive extractor over the degraded notice and then persists the
user's message and the notice as two turns before sending the notice — the
specified behaviour (skip extraction, leave history unchanged) does not
hold: history gains two rows. -/
theorem exhausted_chain_persists_degraded_turns :
    ((processing_pipeline baseEnv dbAsha "919999990000".data "hi".data none).gemini.map
        Prod.snd = [.error "err".data, .error "err".data])
    ∧ ((processing_pipeline baseEnv dbAsha "919999990000".data "hi".data none).groq.map
        Prod.snd = [.error "err".data])
    ∧ ((processing_pipeline baseEnv dbAsha "919999990000".data "hi".data none).sent
      = [("919999990000".data, degraded_notice)])
    ∧ ((processing_pipeline baseEnv dbAsha "919999990000".data "hi".data none).db.chat
      = [{ user_id := 1, role := "user".data, content := "hi".data },
         { user_id := 1, role := "assistant".data, content := degraded_notice }]) := by
  refine ⟨by decide, by decide, by decide, by decide⟩

/-- C4. A recognized marker with a payload that fails to parse: the
`except` branch of `extract_json` replaces
`f"TAG SPACE PAYLOAD]]"` — but the original text has no space between the
tag and the payload slice, so the pattern never matches at the marker and
the malformed span survives in the cleaned text. Extraction does not raise
and no directive is applied (first component `none`), but the cleaned text
still contains the full marker span, which the claim says is removed. -/
theorem malformed_span_not_stripped :
    ((extract_json (fun _ => none) tagUP
        "Ok [[UPDATE_PROFILE: oops]] Done".data).1.isNone = true)
    ∧ ((extract_json (fun _ => none) tagUP
        "Ok [[UPDATE_PROFILE: oops]] Done".data).2
      = "Ok [[UPDATE_PROFILE: oops]] Done".data)
    ∧ (pyContains (extract_json (fun _ => none) tagUP
        "Ok [[UPDATE_PROFILE: oops]] Done".data).2 tagUP = true) := by
  refine ⟨by decide, by decide, by decide⟩

/-- A due pending reminder owned by the concrete user. -/
def remPill : ReminderRow :=
  { id := 5, user_id := 1, reminder_time := "2024-06-01T09:00:00".data,
    message := "Take pill".data, status := "pending".data }

/-- A store holding that user and that reminder. -/
def dbPill : Db :=
  { users := [uAsha], chat := [], reminders := [remPill], nextUserId := 2,
    nextReminderId := 6 }

/-- C7. A due pending reminder whose delivery fails: `check_Reminders`
ignores the Boolean returned by `send_whatsapp_message` (main.py:606-611),
so the reminder is marked `sent` even though the delivery attempt returned
failure, and a second sweep makes no further attempt — the claim says a
failed delivery leaves the reminder `pending` for the next sweep. -/
theorem sweep_marks_sent_despite_failed_delivery :
    ((check_Reminders (fun _ _ => false) "2025-01-01T00:00:00".data dbPill).2
      = [("919999990000".data, "⏰ Reminder: Take pill".data, false)])
    ∧ ((check_Reminders (fun _ _ => false) "2025-01-01T00:00:00".data
        dbPill).1.reminders.map ReminderRow.status = ["sent".data])
    ∧ ((check_Reminders (fun _ _ => false) "2025-01-01T00:00:00".data
        (check_Reminders (fun _ _ => false) "2025-01-01T00:00:00".data dbPill).1).2
      = []) := by
  refine ⟨by decide, by decide, by decide⟩

/-- C3, counterexample. A valid profile-update directive with text after the
closing marker: the claim says the cleaned text is the input with exactly the
marked span removed ("Hi " ++ " Bye"), but `extract_json` returns
`text[:s].strip()`, discarding everything from the marker on: the cleaned
text is "Hi" and the trailing " Bye" is gone. -/
theorem extractor_drops_text_after_marker :
    ((extract_json (fun _ => some (.num 1)) tagUP
        "Hi [[UPDATE_PROFILE: 1]] Bye".data).2 = "Hi".data)
    ∧ ("Hi".data ≠ ("Hi ".data ++ " Bye".data : Str)) := by
  refine ⟨by decide, by decide⟩

/-- A natural-number slice endpoint within range normalises to itself. -/
theorem pyIdx_coe {len n : Nat} (h : n ≤ len) : pyIdx len (n : Int) = n := by
  unfold pyIdx
  rw [if_neg (by omega)]
  simp [Int.toNat_ofNat]
  omega

/-- Slicing a string from 0 to the length of a prefix yields that prefix. -/
theorem pySlice_prefix (x y : Str) : pySlice (x ++ y) 0 (x.length : Int) = x := by
  unfold pySlice
  have h0 : pyIdx (x ++ y).length 0 = 0 := by
    unfold pyIdx; simp
  have h1 : pyIdx (x ++ y).length (x.length : Int) = x.length := by
    apply pyIdx_coe; simp
  rw [h0, h1, List.drop_zero, List.take_left]

/-- Slicing between the borders of the middle block of `x ++ y ++ z`
yields `y`. -/
theorem pySlice_middle (x y z : Str) :
    pySlice (x ++ y ++ z) (x.length : Int) (((x.length + y.length : Nat) : Int)) = y := by
  unfold pySlice
  have h1 : pyIdx (x ++ y ++ z).length (x.length : Int) = x.length := by
    apply pyIdx_coe; simp
  have h2 : pyIdx (x ++ y ++ z).length ((x.length + y.length : Nat) : Int)
      = x.length + y.length := by
    apply pyIdx_coe; simp
  rw [h1, h2]
  have h3 : (x ++ y ++ z).take (x.length + y.length) = x ++ y := by
    rw [← List.length_append x y]
    exact List.take_left (x ++ y) z
  rw [h3, List.drop_left]

/-- C3, amended. For a text `pre ++ tag ++ payload ++ "]]" ++ post` whose
first tag occurrence starts at `|pre|`, whose first closing marker at or
after it sits right after the payload, and whose payload parses, the
extractor returns the parsed payload, and the cleaned text is the text
before the open marker with surrounding whitespace stripped — everything
from the open marker onward, the text after the closing marker included, is
discarded rather than preserved. -/
theorem extract_json_truncates_at_marker
    (loads : Str → Option Json) (tag pre payload post : Str) (v : Json)
    (hfind : findFromAux tag (pre ++ tag ++ payload ++ "]]".data ++ post) 0
      = some pre.length)
    (hclose : pyFind (pre ++ tag ++ payload ++ "]]".data ++ post) "]]".data pre.length
      = ((pre.length + tag.length + payload.length : Nat) : Int))
    (hparse : loads payload = some v) :
    extract_json loads tag (pre ++ tag ++ payload ++ "]]".data ++ post)
      = (some v, pyStrip pre) := by
  have hslice : pySlice (pre ++ tag ++ payload ++ "]]".data ++ post)
      ((pre.length : Int) + (tag.length : Int))
      ((pre.length + tag.length + payload.length : Nat) : Int) = payload := by
    have h := pySlice_middle (pre ++ tag) payload ("]]".data ++ post)
    simp only [List.length_append, List.append_assoc, Nat.cast_add] at h ⊢
    convert h using 2
  have hpre : pySlice (pre ++ tag ++ payload ++ "]]".data ++ post) 0
      (pre.length : Int) = pre := by
    have h := pySlice_prefix pre (tag ++ (payload ++ ("]]".data ++ post)))
    simpa [List.append_assoc] using h
  unfold extract_json
  rw [hfind]
  simp only [hclose, hslice, hparse]
  rw [hpre]

/-- Witness for C3's amended theorem: a concrete well-formed directive with
text before and after the marker. -/
theorem extract_json_truncates_at_marker_witness :
    extract_json (fun _ => some (.num 1)) tagUP
        ("A ".data ++ tagUP ++ " 1".data ++ "]]".data ++ " B".data)
      = (some (.num 1), pyStrip "A ".data) :=
  extract_json_truncates_at_marker (fun _ => some (.num 1)) tagUP "A ".data
    " 1".data " B".data (.num 1) (by decide) (by decide) rfl

/-- C5. The provider chain attempts the primaries in declared order and
stops at the first success with no further calls; a failure of the first
model advances immediately to the second (each model appears exactly once in
the trace — no retry, no backoff); and when both primaries fail (and the
Groq client is configured) exactly one fallback call is made, whose request
carries the system instructions and the user text only — no history, no
media — and whose success terminates the chain. -/
theorem provider_chain_order_and_fallback
    (behavior groqB : GenRequest → GenOutcome) (gc : Bool) (mk : Str → GenRequest)
    (sys body : Str) :
    (∀ t, behavior (mk "gemini-2.0-flash".data) = .success t →
      run_model_chain behavior groqB gc mk sys body
        = (some t, [(mk "gemini-2.0-flash".data, .success t)], []))
    ∧ (∀ e t, behavior (mk "gemini-2.0-flash".data) = .error e →
        behavior (mk "gemini-2.0-flash-lite-001".data) = .success t →
        run_model_chain behavior groqB gc mk sys body
          = (some t, [(mk "gemini-2.0-flash".data, .error e),
              (mk "gemini-2.0-flash-lite-001".data, .success t)], []))
    ∧ (∀ e1 e2, behavior (mk "gemini-2.0-flash".data) = .error e1 →
        behavior (mk "gemini-2.0-flash-lite-001".data) = .error e2 →
        ((run_model_chain behavior groqB true mk sys body).2.2.map Prod.fst
            = [groq_request sys body])
        ∧ (groq_request sys body).history = []
        ∧ (groq_request sys body).media = none
        ∧ (groq_request sys body).system = sys
        ∧ (groq_request sys body).userText = body
        ∧ (∀ t, groqB (groq_request sys body) = .success t →
            (run_model_chain behavior groqB true mk sys body).1 = some t)) := by
  refine ⟨?_, ?_, ?_⟩
  · intro t h1
    simp [run_model_chain, run_gemini_chain, models_to_try, h1]
  · intro e t h1 h2
    simp [run_model_chain, run_gemini_chain, models_to_try, h1, h2]
  · intro e1 e2 h1 h2
    refine ⟨?_, rfl, rfl, rfl, rfl, ?_⟩
    · cases hq : groqB (groq_request sys body) <;>
        simp [run_model_chain, run_gemini_chain, models_to_try, h1, h2, hq]
    · intro t hq
      simp [run_model_chain, run_gemini_chain, models_to_try, h1, h2, hq]

/-- A minimal request builder for the C5 witness. -/
def mkPlain (m : Str) : GenRequest :=
  { model := m, system := "s".data, history := [], userText := "u".data,
    media := none, mediaLabel := [] }

/-- Witness for C5: both primaries rate-limited, the fallback succeeds. -/
theorem provider_chain_order_and_fallback_witness :
    ((run_model_chain (fun _ => .error "429 rate".data)
        (fun _ => .success "ok".data) true mkPlain
        "s".data "u".data).1 = some "ok".data)
    ∧ ((run_model_chain (fun _ => .error "429 rate".data)
        (fun _ => .success "ok".data) true mkPlain
        "s".data "u".data).2.2.map Prod.fst = [groq_request "s".data "u".data]) := by
  have h := provider_chain_order_and_fallback (fun _ => .error "429 rate".data)
    (fun _ => .success "ok".data) true mkPlain "s".data "u".data
  exact ⟨(h.2.2 _ _ rfl rfl).2.2.2.2.2 _ rfl, (h.2.2 _ _ rfl rfl).1⟩

/-- A concrete `fromisoformat` accepting exactly one timestamp, for the C6
scenario. -/
def isoF : Str → Option Str :=
  fun s => if s = "2025-01-01T09:00:00".data then some s else none

/-- A well-formed reminder entry (message and parsable time). -/
def entryMet : Json :=
  .obj [("message".data, .str "Take Metformin".data),
        ("time".data, .str "2025-01-01T09:00:00".data)]

/-- A malformed entry: no "time" key, so `item['time']` raises `KeyError`. -/
def entryBad : Json := .obj [("message".data, .str "Walk".data)]

/-- A second well-formed entry, after the malformed one. -/
def entryWater : Json :=
  .obj [("message".data, .str "Drink water".data),
        ("time".data, .str "2025-01-01T09:00:00".data)]

/-- An empty store. -/
def dbEmpty : Db :=
  { users := [], chat := [], reminders := [], nextUserId := 1, nextReminderId := 1 }

/-- C6, counterexample. The batch `[entryMet, entryBad, entryWater]`: the
claim says only the malformed middle entry is skipped, but the `try` wraps
the whole loop (main.py:494-500), so the well-formed third entry
(`entryWater`) is never persisted — only the first entry's reminder exists
afterwards. -/
theorem reminder_batch_aborts_at_malformed_entry :
    ((parse_reminder_entry isoF entryWater).isSome = true)
    ∧ ((apply_reminder_batch isoF 7 dbEmpty
        (.arr [entryMet, entryBad, entryWater])).reminders.map ReminderRow.message
      = ["Take Metformin".data]) := by
  refine ⟨by decide, by decide⟩

/-- The reminder rows a batch produces, reading entries in order from the
next free id: a parse failure ends the list, an entry whose message is not
a string is skipped by the store (failed insert, swallowed), every other
entry becomes a pending row. -/
def expected_rows (f : Str → Option Str) (uid : Nat) : Nat → List Json → List ReminderRow
  | _, [] => []
  | n, e :: rest =>
    match parse_reminder_entry f e with
    | some (t, .str s) =>
      { id := n, user_id := uid, reminder_time := t, message := s,
        status := "pending".data } :: expected_rows f uid (n + 1) rest
    | some (_, _) => expected_rows f uid n rest
    | none => []

/-- C6, amended. A reminder batch persists exactly the longest prefix of
entries that parse (each as a pending reminder, in order; entries whose
message value is not a string fail their insert individually): the first
malformed entry aborts the rest of the batch rather than being skipped
individually. -/
theorem apply_reminder_batch_persists_wellformed_prefix
    (f : Str → Option Str) (uid : Nat) (db : Db) (items : List Json) :
    (apply_reminder_batch f uid db (.arr items)).reminders
      = db.reminders ++ expected_rows f uid db.nextReminderId
          (items.takeWhile (fun e => (parse_reminder_entry f e).isSome)) := by
  show (apply_entries f uid db items).reminders = _
  induction items generalizing db with
  | nil => simp [apply_entries, expected_rows]
  | cons e rest ih =>
    cases hp : parse_reminder_entry f e with
    | none =>
      simp [apply_entries, hp, List.takeWhile, expected_rows]
    | some tm =>
      obtain ⟨t, m⟩ := tm
      cases m <;>
        (simp only [apply_entries, hp, List.takeWhile_cons, Option.isSome_some,
          decide_True, if_true, expected_rows]
         rw [ih]
         simp [create_reminder, expected_rows, hp])

/-- C8. A user whose stored name equals the onboarding sentinel "Pending":
whatever the inbound message is, the pipeline stores its
whitespace-trimmed text as the user's name, sends the confirmation
greeting, leaves history untouched and never calls any provider
(main.py:247-257). -/
theorem name_capture_stores_trimmed_name
    (env : Env) (db : Db) (phone body : Str) (media : Option MediaFetch) (u : UserRow)
    (h1 : get_user env.lookupFails db phone = some u)
    (h2 : u.name = some "Pending".data) :
    ((processing_pipeline env db phone body media).sent
      = [(phone, "Namaste ".data ++ pyStrip body ++ "! I am ready to help you with your health. How are you feeling today?".data)])
    ∧ ((processing_pipeline env db phone body media).db.users
      = db.users.map (fun v =>
          if v.phone_number = phone then { v with name := some (pyStrip body) } else v))
    ∧ ((processing_pipeline env db phone body media).db.chat = db.chat)
    ∧ ((processing_pipeline env db phone body media).gemini = [])
    ∧ ((processing_pipeline env db phone body media).groq = []) := by
  have haf : ∀ v : UserRow, applyField v "name".data (Json.str (pyStrip body))
      = some { v with name := some (pyStrip body) } := fun v => rfl
  unfold processing_pipeline
  rw [h1]
  simp [h2, update_user_profile, applyFields, haf]

/-- A user still carrying the onboarding sentinel as name. -/
def uPending : UserRow :=
  { id := 3, phone_number := "918888880000".data, name := some "Pending".data,
    age := none, gender := none, blood_group := none, allergies := none,
    medical_history := none, emergency_contact := none }

/-- A store holding only that user. -/
def dbPending : Db :=
  { users := [uPending], chat := [], reminders := [], nextUserId := 4,
    nextReminderId := 1 }

/-- Witness for C8: the message "  Ravi  " becomes the name "Ravi". -/
theorem name_capture_stores_trimmed_name_witness :
    ((processing_pipeline baseEnv dbPending "918888880000".data "  Ravi  ".data none).sent
      = [("918888880000".data, "Namaste ".data ++ pyStrip "  Ravi  ".data ++ "! I am ready to help you with your health. How are you feeling today?".data)])
    ∧ ((processing_pipeline baseEnv dbPending "918888880000".data "  Ravi  ".data none).db.users
      = dbPending.users.map (fun v =>
          if v.phone_number = "918888880000".data then { v with name := some (pyStrip "  Ravi  ".data) } else v))
    ∧ ((processing_pipeline baseEnv dbPending "918888880000".data "  Ravi  ".data none).db.chat
      = dbPending.chat)
    ∧ ((processing_pipeline baseEnv dbPending "918888880000".data "  Ravi  ".data none).gemini = [])
    ∧ ((processing_pipeline baseEnv dbPending "918888880000".data "  Ravi  ".data none).groq = []) :=
  name_capture_stores_trimmed_name baseEnv dbPending "918888880000".data
    "  Ravi  ".data none uPending rfl rfl

/-- C10. When the store lookup raises, `get_user` logs and returns `None`
(main.py:87-89), and the pipeline cannot tell that from a missing user
(main.py:241-245): even for a phone number whose row exists in the store,
the run attempts to insert a fresh "Pending" user, sends the fixed
onboarding introduction, and ends — the message is never processed and no
provider is called. -/
theorem lookup_failure_reonboards_existing_user
    (env : Env) (db : Db) (phone body : Str) (media : Option MediaFetch)
    (h1 : env.lookupFails = true)
    (h2 : (db.users.find? (fun u => decide (u.phone_number = phone))).isSome = true) :
    ((processing_pipeline env db phone body media).sent = [(phone, onboarding_intro)])
    ∧ ((processing_pipeline env db phone body media).db
      = create_user db phone "Pending".data)
    ∧ ((processing_pipeline env db phone body media).db.users = db.users)
    ∧ ((processing_pipeline env db phone body media).gemini = [])
    ∧ ((processing_pipeline env db phone body media).groq = []) := by
  have hget : get_user env.lookupFails db phone = none := by
    simp [get_user, h1]
  have hany : db.users.any (fun u => decide (u.phone_number = phone)) = true := by
    obtain ⟨u, hu⟩ := Option.isSome_iff_exists.mp h2
    have hp := List.find?_some hu
    exact List.any_eq_true.mpr ⟨u, List.mem_of_find?_eq_some hu, hp⟩
  unfold processing_pipeline
  rw [hget]
  refine ⟨rfl, rfl, ?_, rfl, rfl⟩
  simp [create_user, hany]

/-- Witness for C10: the fully onboarded user of `dbAsha` is re-onboarded
when her lookup fails. -/
theorem lookup_failure_reonboards_existing_user_witness :
    ((processing_pipeline { baseEnv with lookupFails := true } dbAsha "919999990000".data "hello".data none).sent
      = [("919999990000".data, onboarding_intro)])
    ∧ ((processing_pipeline { baseEnv with lookupFails := true } dbAsha "919999990000".data "hello".data none).db
      = create_user dbAsha "919999990000".data "Pending".data)
    ∧ ((processing_pipeline { baseEnv with lookupFails := true } dbAsha "919999990000".data "hello".data none).db.users
      = dbAsha.users)
    ∧ ((processing_pipeline { baseEnv with lookupFails := true } dbAsha "919999990000".data "hello".data none).gemini = [])
    ∧ ((processing_pipeline { baseEnv with lookupFails := true } dbAsha "919999990000".data "hello".data none).groq = []) :=
  lookup_failure_reonboards_existing_user { baseEnv with lookupFails := true }
    dbAsha "919999990000".data "hello".data none rfl (by decide)

/-- C9 as claimed: a profile rendering that includes each of the six stored
profile fields (age, gender, blood group, allergies, medical history,
emergency contact) if and only if the field is present and non-null.
Written from the spec's words, to be compared with `profile_str`. -/
def profile_str_claim (u : UserRow) : Str :=
  "Name: ".data ++ pyOptStr u.name ++ "\n".data
  ++ (match u.age with
      | some n => "Age: ".data ++ (toString n).data ++ "\n".data
      | none => [])
  ++ (match u.gender with
      | some g => "Gender: ".data ++ g ++ "\n".data
      | none => [])
  ++ (match u.blood_group with
      | some b => "Blood Group: ".data ++ b ++ "\n".data
      | none => [])
  ++ (match u.allergies with
      | some a => "Allergies: ".data ++ a ++ "\n".data
      | none => [])
  ++ (match u.medical_history with
      | some h => "History: ".data ++ h ++ "\n".data
      | none => [])
  ++ (match u.emergency_contact with
      | some c => "Emergency Contact: ".data ++ c ++ "\n".data
      | none => [])

/-- A user with a stored blood group. -/
def uBlood : UserRow :=
  { uAsha with blood_group := some "O+".data }

/-- C9, counterexample. A user whose blood group is present and non-null:
the system-instruction profile block never mentions it — `profile_str`
renders no blood-group line at all, so inclusion is not "if and only if
present" for that field. -/
theorem profile_omits_blood_group :
    (uBlood.blood_group = some "O+".data)
    ∧ (profile_str uBlood ≠ profile_str_claim uBlood)
    ∧ (pyContains (profile_str uBlood) "Blood".data = false) := by
  refine ⟨rfl, by decide, by decide⟩

/-- One optional string field of the amended profile rendering: a line when
the value is truthy, nothing otherwise. -/
def optField (label : Str) (v : Option Str) : Str :=
  if strTruthy v then label ++ pyOptStr v ++ "\n".data else []

/-- The age field of the amended profile rendering. -/
def optAgeField (v : Option Int) : Str :=
  if intTruthy v then "Age: ".data ++ pyOptInt v ++ "\n".data else []

/-- C9 amended: what the assembled profile block actually contains — the
name line, then age, gender, allergies, medical history and emergency
contact, each present if and only if the stored value is truthy (non-null
and non-zero / non-empty); blood group is never included. -/
def profile_str_amended (u : UserRow) : Str :=
  "Name: ".data ++ pyOptStr u.name ++ "\n".data
  ++ optAgeField u.age
  ++ optField "Gender: ".data u.gender
  ++ optField "Allergies: ".data u.allergies
  ++ optField "History: ".data u.medical_history
  ++ optField "Emergency Contact: ".data u.emergency_contact

/-- Accumulating a conditional three-part suffix equals appending the
conditional block. -/
theorem if_acc3 (c : Bool) (s a b d : Str) :
    (if c = true then s ++ a ++ b ++ d else s)
      = s ++ (if c = true then a ++ (b ++ d) else []) := by
  cases c <;> simp [List.append_assoc]

/-- C9, amended theorem: the profile block of the system instruction equals
the amended rendering for every user — fields appear iff truthy, and blood
group never appears. -/
theorem profile_str_fields_iff_truthy (u : UserRow) :
    profile_str u = profile_str_amended u := by
  unfold profile_str profile_str_amended optField optAgeField
  rw [if_acc3, if_acc3, if_acc3, if_acc3, if_acc3]
  simp [List.append_assoc]
